import Mathlib

/-!
# Touchpad relay: host event handlers and client gesture encoder

A shallow embedding of `MouseApp-server/server.js` (the socket handlers of
`TouchpadServer` and `smoothMove`) and of the three emitting callbacks of
`Mouse-app/app/index.jsx` (`onPanResponderMove`, `handleClick`,
`handleScroll`).

Modelling decisions.

* JavaScript numbers.  Every handler is written once, over an arbitrary
  carrier `α` with a record `JsArith α` of the number operations the source
  uses (`+ - * /`, `Math.round`, numeric literals, `> 0`).  Two instances are
  given: `exactArith` (rationals, no rounding error) and `binary64`
  (IEEE 754 double precision, round to nearest, ties to even, on finite
  values).
* `robotjs`.  The calls `robot.moveMouse`, `robot.mouseClick`, ... are
  recorded, in order, in a trace.  Whether a call throws is decided by the
  environment `Env` of the running callback, as is the value returned by
  `robot.getMousePos()` at each of its calls: the pointer belongs to the
  operating system, so the two reads made while a smoothed `move` is handled
  (one in the handler, one in `smoothMove`) are separate queries and may
  return different positions.
* `setTimeout`.  Both callbacks handed to `setTimeout` in `server.js` consist
  of one robot call whose arguments are pure functions of captured constants,
  so a registered timer is recorded as the pair (delay, robot call);
  `timerCallback` is the body that runs when it fires.
* `try`/`catch` is the `tryCatch` of the `Script` monad; an exception that
  no handler catches is reported in `Outcome.uncaught`.
* `console.log` / `console.error` and `Vibration.vibrate` have no influence
  on the events and commands below; logging is omitted, vibration pulses are
  recorded on the client side.
-/

namespace MouseController

/-! ## Number arithmetic -/

/-- The operations on JavaScript numbers that the two programs use. -/
structure JsArith (α : Type) where
  /-- Binary `+` on numbers. -/
  add : α → α → α
  /-- Binary `-`. -/
  sub : α → α → α
  /-- Binary `*`. -/
  mul : α → α → α
  /-- Binary `/`. -/
  div : α → α → α
  /-- The function `Math.round`: nearest integer, ties towards `+∞`. -/
  round : α → α
  /-- An integer literal such as `5`, `100` or `-1`. -/
  ofInt : Int → α
  /-- The test `x > 0`. -/
  isPos : α → Bool

/-- Exact arithmetic on the rationals: no operation incurs a rounding error. -/
def exactArith : JsArith ℚ where
  add := fun a b => a + b
  sub := fun a b => a - b
  mul := fun a b => a * b
  div := fun a b => a / b
  round := fun a => (⌊a + 1 / 2⌋ : ℤ)
  ofInt := fun z => (z : ℚ)
  isPos := fun a => decide (0 < a)

/-- A finite IEEE 754 binary64 value `m * 2 ^ e`, kept in canonical form
(`m` odd, or `m = 0` and `e = 0`) by every operation below. -/
structure F64 where
  m : Int
  e : Int
deriving DecidableEq

namespace F64

/-- Bit length minus one, by repeated halving. -/
def log2Fuel : Nat → Nat → Nat
  | 0, _ => 0
  | fuel + 1, n => if n < 2 then 0 else log2Fuel fuel (n / 2) + 1

/-- The floor of the binary logarithm of a positive natural number. -/
def ilog2 (n : Nat) : Nat := log2Fuel n n

/-- The quotient `a / b` rounded to the nearest natural number, ties to even. -/
def roundHalfEven (a b : Nat) : Nat :=
  let f := a / b
  let r := a % b
  if 2 * r < b then f
  else if b < 2 * r then f + 1
  else if f % 2 = 0 then f else f + 1

/-- The floor of the binary logarithm of the positive rational `n / d`. -/
def binade (n d : Nat) : Int :=
  let k : Int := (ilog2 n : Int) - (ilog2 d : Int)
  if 0 ≤ k then (if d * 2 ^ k.toNat ≤ n then k else k - 1)
  else (if d ≤ n * 2 ^ (-k).toNat then k else k - 1)

/-- The number of trailing zero bits of a positive natural number. -/
def trailingZeros (n : Nat) : Nat := ilog2 (Nat.gcd n (2 ^ ilog2 n))

/-- Canonical representative of `m * 2 ^ e`. -/
def canon (m e : Int) : F64 :=
  if m = 0 then ⟨0, 0⟩
  else
    let tz := trailingZeros m.natAbs
    ⟨m / (2 ^ tz : Nat), e + tz⟩

/-- The binary64 value nearest to `± (n / d) * 2 ^ sh` (ties to even): the
result is a multiple of the quantum `2 ^ qe`, where `qe` is 52 below the
binade of the exact value (53 significant bits) and at least `-1074`
(gradual underflow).  Overflow to `Infinity` is outside the model. -/
def roundTo64 (neg : Bool) (n d : Nat) (sh : Int) : F64 :=
  if n = 0 ∨ d = 0 then ⟨0, 0⟩
  else
    let qe : Int := max (binade n d + sh - 52) (-1074)
    let t := sh - qe
    let r : Nat := if 0 ≤ t then roundHalfEven (n * 2 ^ t.toNat) d
                   else roundHalfEven n (d * 2 ^ (-t).toNat)
    canon (if neg then -(r : Int) else r) qe

/-- An integer literal. -/
def ofInt (z : Int) : F64 := roundTo64 (decide (z < 0)) z.natAbs 1 0

/-- Correctly rounded sum. -/
def add (a b : F64) : F64 :=
  let lo := min a.e b.e
  let s : Int := a.m * 2 ^ (a.e - lo).toNat + b.m * 2 ^ (b.e - lo).toNat
  roundTo64 (decide (s < 0)) s.natAbs 1 lo

/-- Correctly rounded difference. -/
def sub (a b : F64) : F64 := add a ⟨-b.m, b.e⟩

/-- Correctly rounded product. -/
def mul (a b : F64) : F64 :=
  let p := a.m * b.m
  roundTo64 (decide (p < 0)) p.natAbs 1 (a.e + b.e)

/-- Correctly rounded quotient (the divisors in the source are the non-zero
literals `5`, `60` and `2`). -/
def div (a b : F64) : F64 :=
  roundTo64 (decide (a.m < 0) != decide (b.m < 0)) a.m.natAbs b.m.natAbs (a.e - b.e)

/-- The function `Math.round`, i.e. `floor (x + 1/2)` computed exactly. -/
def round (a : F64) : F64 :=
  if 0 ≤ a.e then a
  else canon ((2 * a.m + 2 ^ (-a.e).toNat) / 2 ^ ((-a.e).toNat + 1)) 0

/-- The rational number denoted by a binary64 value. -/
def toRat (a : F64) : ℚ := (a.m : ℚ) * (2 : ℚ) ^ a.e

end F64

/-- IEEE 754 double precision arithmetic on finite values. -/
def binary64 : JsArith F64 where
  add := F64.add
  sub := F64.sub
  mul := F64.mul
  div := F64.div
  round := F64.round
  ofInt := F64.ofInt
  isPos := fun a => decide (0 < a.m)

/-! ## Host: `server.js` -/

/-- The record `this.settings`. -/
structure Settings (α : Type) where
  sensitivity : α
  scrollSensitivity : α
  smoothing : Bool
deriving DecidableEq

/-- A payload of `updateSettings`: any subset of the fields of `Settings`. -/
structure PartialSettings (α : Type) where
  sensitivity : Option α
  scrollSensitivity : Option α
  smoothing : Option Bool
deriving DecidableEq

/-- The object spread `{ ...settings, ...newSettings }`. -/
def spread {α : Type} (settings : Settings α) (newSettings : PartialSettings α) : Settings α where
  sensitivity := newSettings.sensitivity.getD settings.sensitivity
  scrollSensitivity := newSettings.scrollSensitivity.getD settings.scrollSensitivity
  smoothing := newSettings.smoothing.getD settings.smoothing

/-- The settings installed by the constructor of `TouchpadServer`. -/
def defaultSettings {α : Type} (A : JsArith α) : Settings α where
  sensitivity := A.ofInt 2
  scrollSensitivity := A.ofInt 1
  smoothing := true

/-- A command sent to `robotjs`. -/
inductive Prim (α : Type) where
  | moveMouse (x y : α)
  | mouseClick (button : String)
  | scrollMouse (x y : α)
  | keyTap (key : String)
  | mouseToggle (down : String)
  | dragMouse (x y : α)
deriving DecidableEq

/-- An event sent by the host to the client with `socket.emit`. -/
inductive ServerEvent (α : Type) where
  | error (message : String)
  | settingsUpdated (settings : Settings α)
deriving DecidableEq

/-- The behaviour of `robotjs` during one callback run: for each `k`, the
value returned by the `k`-th call of `robot.getMousePos()` (counting from 0),
or the message of the exception it throws; and, for each command, the message
of the exception it throws, if any. -/
structure Env (α : Type) where
  pos : Nat → Except String (α × α)
  fails : Prim α → Option String

/-- Everything a callback can change: the settings of the host, the record
of what has been issued so far, and the number of pointer reads made. -/
structure HostState (α : Type) where
  settings : Settings α
  calls : List (Prim α)
  timers : List (α × Prim α)
  emits : List (ServerEvent α)
  reads : Nat

/-- A piece of host code: it runs against the robot and the host state and
either returns a value or throws. -/
def Script (α β : Type) : Type := Env α → HostState α → Except String β × HostState α

namespace Script

variable {α β γ : Type}

/-- Return a value. -/
def ret (b : β) : Script α β := fun _ s => (.ok b, s)

/-- Sequencing: an exception of the first part skips the second. -/
def andThen (x : Script α β) (f : β → Script α γ) : Script α γ := fun env s =>
  match x env s with
  | (.ok b, s') => f b env s'
  | (.error msg, s') => (.error msg, s')

/-- The statement `throw`. -/
def raise (msg : String) : Script α β := fun _ s => (.error msg, s)

/-- The statement `try { x } catch (error) { h error }`. -/
def attempt (x : Script α β) (h : String → Script α β) : Script α β := fun env s =>
  match x env s with
  | (.ok b, s') => (.ok b, s')
  | (.error msg, s') => h msg env s'

instance : Monad (Script α) where
  pure := ret
  bind := andThen

instance : MonadExcept String (Script α) where
  throw := raise
  tryCatch := attempt

end Script

/-- The call `robot.getMousePos()`: a fresh query of the pointer. -/
def getMousePos {α : Type} : Script α (α × α) := fun env s =>
  (env.pos s.reads, { s with reads := s.reads + 1 })

/-- A command call such as `robot.moveMouse(x, y)`: it is recorded, then it
returns or throws as the environment says. -/
def robotCall {α : Type} (p : Prim α) : Script α Unit := fun env s =>
  let s' := { s with calls := s.calls ++ [p] }
  match env.fails p with
  | some msg => (.error msg, s')
  | none => (.ok (), s')

/-- The call `setTimeout(() => robot.p(...), delay)`. -/
def setTimeout {α : Type} (callback : Prim α) (delay : α) : Script α Unit := fun _ s =>
  (.ok (), { s with timers := s.timers ++ [(delay, callback)] })

/-- The call `socket.emit(name, payload)` on the host. -/
def socketEmit {α : Type} (ev : ServerEvent α) : Script α Unit := fun _ s =>
  (.ok (), { s with emits := s.emits ++ [ev] })

/-- Read `this.settings`. -/
def getSettings {α : Type} : Script α (Settings α) := fun _ s => (.ok s.settings, s)

/-- Assign `this.settings`. -/
def setSettings {α : Type} (settings : Settings α) : Script α Unit := fun _ s =>
  (.ok (), { s with settings := settings })

/-- The loop `for (let i = 1; i <= steps; i++) setTimeout(...)` of
`smoothMove`, entered at counter `i` with `n` iterations left. -/
def smoothLoop {α : Type} (A : JsArith α) (mouse : α × α) (dx dy : α) :
    Int → Nat → Script α Unit
  | _, 0 => pure ()
  | i, n + 1 => do
    setTimeout
      (.moveMouse
        (A.round (A.add mouse.1 (A.mul dx (A.ofInt i))))
        (A.round (A.add mouse.2 (A.mul dy (A.ofInt i)))))
      (A.mul (A.ofInt i) (A.div (A.ofInt 1000) (A.ofInt 60)))
    smoothLoop A mouse dx dy (i + 1) n

/-- The method `TouchpadServer.smoothMove(targetX, targetY)`. -/
def smoothMove {α : Type} (A : JsArith α) (targetX targetY : α) : Script α Unit := do
  let mouse ← getMousePos
  let steps := A.ofInt 5
  let dx := A.div (A.sub targetX mouse.1) steps
  let dy := A.div (A.sub targetY mouse.2) steps
  smoothLoop A mouse dx dy 1 5

/-- The handler `socket.on('move', ...)`. -/
def onMove {α : Type} (A : JsArith α) (dx dy : α) : Script α Unit := do
  try
    let mouse ← getMousePos
    let settings ← getSettings
    let scaledDx := A.mul dx settings.sensitivity
    let scaledDy := A.mul dy settings.sensitivity
    if settings.smoothing then
      smoothMove A (A.add mouse.1 scaledDx) (A.add mouse.2 scaledDy)
    else
      robotCall (.moveMouse (A.add mouse.1 scaledDx) (A.add mouse.2 scaledDy))
  catch _ =>
    socketEmit (.error "Failed to move mouse")

/-- The handler `socket.on('click', ...)`. -/
def onClick {α : Type} (A : JsArith α) (button : String) (double : Bool) : Script α Unit := do
  try
    if double then
      robotCall (.mouseClick button)
      setTimeout (.mouseClick button) (A.ofInt 100)
    else
      robotCall (.mouseClick button)
  catch _ =>
    socketEmit (.error "Failed to click mouse")

/-- The handler `socket.on('scroll', ...)`. -/
def onScroll {α : Type} (A : JsArith α) (scrollAmount : α) : Script α Unit := do
  try
    let finalScrollAmount := A.mul scrollAmount (A.ofInt 100)
    (do
      try
        robotCall (.scrollMouse (A.ofInt 0) finalScrollAmount)
      catch _ =>
        (do
          try
            if A.isPos scrollAmount then
              robotCall (.keyTap "pagedown")
            else
              robotCall (.keyTap "pageup")
          catch _ =>
            pure ()))
  catch err =>
    socketEmit (.error ("Failed to scroll: " ++ err))

/-- The handler `socket.on('drag', ...)`; `startPt` and `endPt` are the
fields `start` and `end` of the payload. -/
def onDrag {α : Type} (_startPt endPt : α × α) : Script α Unit := do
  try
    robotCall (.mouseToggle "down")
    robotCall (.dragMouse endPt.1 endPt.2)
    robotCall (.mouseToggle "up")
  catch _ =>
    socketEmit (.error "Failed to drag")

/-- The handler `socket.on('updateSettings', ...)`. -/
def onUpdateSettings {α : Type} (newSettings : PartialSettings α) : Script α Unit := do
  let settings ← getSettings
  setSettings (spread settings newSettings)
  let settings ← getSettings
  socketEmit (.settingsUpdated settings)

/-- The body of a callback registered with `setTimeout`: the robot call, with
no `try` around it. -/
def timerCallback {α : Type} (callback : Prim α) : Script α Unit :=
  robotCall callback

/-- What one callback run did. -/
structure Outcome (α : Type) where
  settings : Settings α
  calls : List (Prim α)
  timers : List (α × Prim α)
  emits : List (ServerEvent α)
  /-- The message of an exception that left the callback, if any. -/
  uncaught : Option String
deriving DecidableEq

/-- Run a callback of the host from the given settings. -/
def run {α : Type} (env : Env α) (settings : Settings α) (cb : Script α Unit) : Outcome α :=
  match cb env { settings := settings, calls := [], timers := [], emits := [], reads := 0 } with
  | (.ok _, s) =>
    { settings := s.settings, calls := s.calls, timers := s.timers, emits := s.emits,
      uncaught := none }
  | (.error msg, s) =>
    { settings := s.settings, calls := s.calls, timers := s.timers, emits := s.emits,
      uncaught := some msg }

/-! ## Client: `index.jsx` -/

/-- The socket held in `socket.current`: only its `connected` flag matters. -/
structure ClientSocket where
  connected : Bool
deriving DecidableEq

/-- An event sent by the client with `socket.current.emit`. -/
inductive ClientEvent (α : Type) where
  | move (dx dy : α)
  | click (button : String) (double : Bool)
  | scroll (scrollAmount : α)
deriving DecidableEq

/-- What one client callback did: the events emitted and the vibration
pulses (in milliseconds). -/
structure ClientOutcome (α : Type) where
  emits : List (ClientEvent α)
  vibrations : List Nat
deriving DecidableEq

/-- The expression `socket.current?.connected` used as a condition;
`socket.current` is `null` until `connectToServer` assigns it. -/
def connected (socket : Option ClientSocket) : Bool :=
  match socket with
  | some s => s.connected
  | none => false

/-- The callback `onPanResponderMove(evt, gestureState)`. -/
def onPanResponderMove {α : Type} (A : JsArith α) (socket : Option ClientSocket)
    (gestureDx gestureDy : α) : ClientOutcome α :=
  if !connected socket then { emits := [], vibrations := [] }
  else
    let dx := A.div gestureDx (A.ofInt 2)
    let dy := A.div gestureDy (A.ofInt 2)
    { emits := [.move dx dy], vibrations := [] }

/-- The function `handleClick(button, double = false)`; `none` is an omitted
second argument. -/
def handleClick {α : Type} (socket : Option ClientSocket) (button : String)
    (double : Option Bool) : ClientOutcome α :=
  if !connected socket then { emits := [], vibrations := [] }
  else { emits := [.click button (double.getD false)], vibrations := [50] }

/-- The function `handleScroll(direction)`. -/
def handleScroll {α : Type} (A : JsArith α) (socket : Option ClientSocket)
    (direction : String) : ClientOutcome α :=
  if !connected socket then { emits := [], vibrations := [] }
  else
    let scrollAmount := if direction = "up" then A.ofInt (-1) else A.ofInt 1
    { emits := [.scroll scrollAmount], vibrations := [50] }

/-! ## Notions used to state the properties -/

/-- An environment in which no robot call throws and the pointer stays at
`(x, y)`. -/
def quietEnv {α : Type} (x y : α) : Env α where
  pos := fun _ => .ok (x, y)
  fails := fun _ => none

/-- An environment in which no robot call throws, the first pointer read
returns `first` and every later one returns `later`. -/
def movingEnv {α : Type} (first later : α × α) : Env α where
  pos := fun k => if k = 0 then .ok first else .ok later
  fails := fun _ => none

/-- An environment in which every robot command throws `msg`; the pointer
is at `(x, y)`. -/
def brokenEnv {α : Type} (x y : α) (msg : String) : Env α where
  pos := fun _ => .ok (x, y)
  fails := fun _ => some msg

/-- A robot that rejects a click on a button it does not know, as `robotjs`
does (it accepts `left`, `right` and `middle`), and otherwise never throws;
the pointer is at `(x, y)`. -/
def knownButtonsEnv {α : Type} (x y : α) : Env α where
  pos := fun _ => .ok (x, y)
  fails := fun p =>
    match p with
    | .mouseClick button =>
      if button = "left" ∨ button = "right" ∨ button = "middle" then none
      else some "Invalid mouse button specified."
    | _ => none

/-- Two `updateSettings` payloads name no common field. -/
def fieldsDisjoint {α : Type} (p q : PartialSettings α) : Prop :=
  (p.sensitivity = none ∨ q.sensitivity = none) ∧
  (p.scrollSensitivity = none ∨ q.scrollSensitivity = none) ∧
  (p.smoothing = none ∨ q.smoothing = none)

/-- The payload carrying the fields of both `p` and `q` (those of `q` win
where both name a field). -/
def unionFields {α : Type} (p q : PartialSettings α) : PartialSettings α where
  sensitivity := q.sensitivity.orElse (fun _ => p.sensitivity)
  scrollSensitivity := q.scrollSensitivity.orElse (fun _ => p.scrollSensitivity)
  smoothing := q.smoothing.orElse (fun _ => p.smoothing)

/-- The settings of the host after it has handled `updateSettings` with `p`. -/
def afterUpdate {α : Type} (env : Env α) (settings : Settings α) (p : PartialSettings α) :
    Settings α :=
  (run env settings (onUpdateSettings p)).settings

/-- The double `1.7499999999999998`, the largest below `7/4`. -/
def belowSevenQuarters : F64 := ⟨7881299347898367, -52⟩

/-- The double `1.2499999999999998`, the largest below `5/4`. -/
def belowFiveQuarters : F64 := ⟨5629499534213119, -52⟩

end MouseController

namespace MouseController

set_option maxRecDepth 1000000

/-! ## The binary64 model on well-known values -/

/-- The literal `0.1` is the double `3602879701896397 * 2 ^ (-55)`. -/
theorem binary64_one_tenth :
    F64.div (F64.ofInt 1) (F64.ofInt 10) = ⟨3602879701896397, -55⟩ := by
  decide

/-- In doubles `0.1 + 0.2` is `0.30000000000000004`, not the double `0.3`. -/
theorem binary64_tenth_plus_fifth :
    F64.add (F64.div (F64.ofInt 1) (F64.ofInt 10)) (F64.div (F64.ofInt 2) (F64.ofInt 10))
        = ⟨1351079888211149, -52⟩ ∧
      F64.div (F64.ofInt 3) (F64.ofInt 10) = ⟨5404319552844595, -54⟩ := by
  decide

/-- The frame period `1000 / 60` is the double `16.666666666666668`. -/
theorem binary64_frame_period :
    F64.div (F64.ofInt 1000) (F64.ofInt 60) = ⟨4691249611844267, -48⟩ := by
  decide

/-- The function `Math.round` rounds ties towards `+∞`: `2.5 ↦ 3`, `-2.5 ↦ -2`,
`-3.5 ↦ -3`, and `0.49999999999999994 ↦ 0`. -/
theorem binary64_round_ties :
    F64.round ⟨5, -1⟩ = F64.ofInt 3 ∧ F64.round ⟨-5, -1⟩ = F64.ofInt (-2) ∧
      F64.round ⟨-7, -1⟩ = F64.ofInt (-3) ∧
      F64.round ⟨9007199254740991, -54⟩ = F64.ofInt 0 := by
  decide

/-- The two doubles used below denote `7/4 - 2 ^ (-52)` and `5/4 - 2 ^ (-52)`,
the largest doubles below `7/4` and `5/4`. -/
theorem constants_denote :
    F64.toRat belowSevenQuarters = 7 / 4 - 1 / 2 ^ 52 ∧
      F64.toRat belowFiveQuarters = 5 / 4 - 1 / 2 ^ 52 := by
  constructor <;> norm_num [F64.toRat, belowSevenQuarters, belowFiveQuarters]

/-- The arithmetic behind the counterexample to C2, step by step, for
`dx = 1.7499999999999998`, sensitivity `2` and the pointer at `x0 = 0`:
`dx * 2 = 3.4999999999999996 = 7881299347898367 * 2 ^ (-51)`; adding and
subtracting `0` changes nothing; dividing by `5` gives the double
`3152519739159347 * 2 ^ (-52)`; five times that is
`15762598695796735 * 2 ^ (-52)`, exactly half way between the doubles
`7881299347898367 * 2 ^ (-51)` and `7881299347898368 * 2 ^ (-51) = 3.5`, so it
rounds to the even one, `3.5`; and `Math.round 3.5 = 4`, while
`Math.round 3.4999999999999996 = 3`. -/
theorem binary64_end_point_trace :
    F64.mul belowSevenQuarters (F64.ofInt 2) = ⟨7881299347898367, -51⟩ ∧
      F64.add (F64.ofInt 0) ⟨7881299347898367, -51⟩ = ⟨7881299347898367, -51⟩ ∧
      F64.sub ⟨7881299347898367, -51⟩ (F64.ofInt 0) = ⟨7881299347898367, -51⟩ ∧
      F64.div ⟨7881299347898367, -51⟩ (F64.ofInt 5) = ⟨3152519739159347, -52⟩ ∧
      F64.mul ⟨3152519739159347, -52⟩ (F64.ofInt 5) = ⟨7, -1⟩ ∧
      F64.add (F64.ofInt 0) ⟨7, -1⟩ = ⟨7, -1⟩ ∧
      F64.round ⟨7, -1⟩ = F64.ofInt 4 ∧
      F64.round ⟨7881299347898367, -51⟩ = F64.ofInt 3 := by
  decide

/-- The arithmetic behind the counterexample to C3, step by step, for
`dx = 1.2499999999999998`, sensitivity `2` and the pointer at `x0 = 2`:
`dx * 2 = 2.4999999999999996`; `2 + 2.4999999999999996` is half way between
two doubles and rounds to the even one, `4.5`; `4.5 - 2 = 2.5`, `2.5 / 5 = 0.5`,
`0.5 * 3 = 1.5`, `2 + 1.5 = 3.5` and `Math.round 3.5 = 4`.  The formula of the
claim divides `2.4999999999999996` itself by `5`, which gives
`0.4999999999999999`; three times that is `1.4999999999999996`, and
`2 + 1.4999999999999996 = 3.4999999999999996` rounds to `3`. -/
theorem binary64_schedule_trace :
    F64.mul belowFiveQuarters (F64.ofInt 2) = ⟨5629499534213119, -51⟩ ∧
      F64.add (F64.ofInt 2) ⟨5629499534213119, -51⟩ = ⟨9, -1⟩ ∧
      F64.sub ⟨9, -1⟩ (F64.ofInt 2) = ⟨5, -1⟩ ∧
      F64.div ⟨5, -1⟩ (F64.ofInt 5) = ⟨1, -1⟩ ∧
      F64.mul ⟨1, -1⟩ (F64.ofInt 3) = ⟨3, -1⟩ ∧
      F64.round (F64.add (F64.ofInt 2) ⟨3, -1⟩) = F64.ofInt 4 ∧
      F64.div ⟨5629499534213119, -51⟩ (F64.ofInt 5) = ⟨4503599627370495, -53⟩ ∧
      F64.mul ⟨4503599627370495, -53⟩ (F64.ofInt 3) = ⟨3377699720527871, -51⟩ ∧
      F64.add (F64.ofInt 2) ⟨3377699720527871, -51⟩ = ⟨7881299347898367, -51⟩ ∧
      F64.round ⟨7881299347898367, -51⟩ = F64.ofInt 3 := by
  decide

/-! ## Runs of the `move` handler -/

/-- With smoothing off, `onMove` makes exactly one `moveMouse` call. -/
theorem onMove_direct_run {α : Type} (A : JsArith α) (env : Env α) (st : Settings α)
    (x0 y0 dx dy : α) (hs : st.smoothing = false) (hp : env.pos 0 = .ok (x0, y0)) :
    (run env st (onMove A dx dy)).calls =
        [.moveMouse (A.add x0 (A.mul dx st.sensitivity)) (A.add y0 (A.mul dy st.sensitivity))] ∧
      (run env st (onMove A dx dy)).timers = [] := by
  cases hf : env.fails
    (.moveMouse (A.add x0 (A.mul dx st.sensitivity)) (A.add y0 (A.mul dy st.sensitivity))) <;>
  simp [run, onMove, tryCatch, tryCatchThe, MonadExcept.tryCatch, bind, Script.attempt,
    Script.andThen, getMousePos, getSettings, robotCall, socketEmit, hs, hp, hf]

/-- With smoothing on, `onMove` calls nothing and registers five timers.  The
handler reads the pointer at `(x0, y0)` and computes the target from it;
`smoothMove` reads it again, at `(x1, y1)`, and interpolates from there. -/
theorem onMove_smooth_run {α : Type} (A : JsArith α) (env : Env α) (st : Settings α)
    (x0 y0 x1 y1 dx dy : α) (hs : st.smoothing = true)
    (hp0 : env.pos 0 = .ok (x0, y0)) (hp1 : env.pos 1 = .ok (x1, y1)) :
    run env st (onMove A dx dy) =
      { settings := st
        calls := []
        timers := ([1, 2, 3, 4, 5] : List Int).map (fun i =>
          (A.mul (A.ofInt i) (A.div (A.ofInt 1000) (A.ofInt 60)),
           Prim.moveMouse
            (A.round (A.add x1 (A.mul
              (A.div (A.sub (A.add x0 (A.mul dx st.sensitivity)) x1) (A.ofInt 5)) (A.ofInt i))))
            (A.round (A.add y1 (A.mul
              (A.div (A.sub (A.add y0 (A.mul dy st.sensitivity)) y1) (A.ofInt 5)) (A.ofInt i))))))
        emits := []
        uncaught := none } := by
  simp [run, onMove, smoothMove, smoothLoop, setTimeout, tryCatch, tryCatchThe,
    MonadExcept.tryCatch, bind, pure, Script.attempt, Script.andThen, Script.ret,
    getMousePos, getSettings, hs, hp0, hp1]

/-- In exact arithmetic the interpolation `a + ((a + d - a) / 5) * i` from the
base `a` the target was computed from is `a + (d / 5) * i`. -/
theorem exact_step (a d : ℚ) (i : ℤ) :
    exactArith.round (exactArith.add a (exactArith.mul
        (exactArith.div (exactArith.sub (exactArith.add a d) a) (exactArith.ofInt 5))
        (exactArith.ofInt i))) =
      exactArith.round (exactArith.add a (exactArith.mul
        (exactArith.div d (exactArith.ofInt 5)) (exactArith.ofInt i))) := by
  simp only [exactArith]
  have e : a + (a + d - a) / ((5 : ℤ) : ℚ) * (i : ℚ) = a + d / ((5 : ℤ) : ℚ) * (i : ℚ) := by
    ring
  rw [e]

/-- In exact arithmetic the fifth interpolation step is the target, from
whatever base `b` the interpolation starts. -/
theorem exact_last_step (a b d : ℚ) :
    exactArith.round (exactArith.add b (exactArith.mul
        (exactArith.div (exactArith.sub (exactArith.add a d) b) (exactArith.ofInt 5))
        (exactArith.ofInt 5))) =
      exactArith.round (exactArith.add a d) := by
  simp only [exactArith]
  have e : b + (a + d - b) / ((5 : ℤ) : ℚ) * ((5 : ℤ) : ℚ) = a + d := by
    push_cast
    ring
  rw [e]

/-- The two pointer reads of a smoothed move are separate: when the handler
reads `(10, 20)` and `smoothMove` then reads `(12, 20)`, the payload `(3, 4)`
(target `(16, 28)`) is interpolated from `(12, 20)`, through `x = 13, 14, 14,
15, 16`; from `(10, 20)` it would go through `x = 11, 12, 14, 15, 16`. -/
theorem smooth_move_two_reads :
    (run (movingEnv (F64.ofInt 10, F64.ofInt 20) (F64.ofInt 12, F64.ofInt 20))
        (defaultSettings binary64) (onMove binary64 (F64.ofInt 3) (F64.ofInt 4))).timers.map
        Prod.snd =
      [.moveMouse (F64.ofInt 13) (F64.ofInt 22), .moveMouse (F64.ofInt 14) (F64.ofInt 23),
        .moveMouse (F64.ofInt 14) (F64.ofInt 25), .moveMouse (F64.ofInt 15) (F64.ofInt 26),
        .moveMouse (F64.ofInt 16) (F64.ofInt 28)] := by
  decide

/-! ## Motion relay -/

/-- C1. Direct mode: with `smoothing = false`, sensitivity `s` and the pointer
read at `(x0, y0)`, the `move` handler makes exactly one `moveMouse` call,
inside the handler itself, to `(x0 + dx * s, y0 + dy * s)`; `Math.round` is not
applied and no timer is registered.  This holds in every number arithmetic. -/
theorem direct_move {α : Type} (A : JsArith α) (env : Env α) (st : Settings α)
    (x0 y0 dx dy : α) (hs : st.smoothing = false) (hp : env.pos 0 = .ok (x0, y0)) :
    (run env st (onMove A dx dy)).calls =
        [.moveMouse (A.add x0 (A.mul dx st.sensitivity)) (A.add y0 (A.mul dy st.sensitivity))] ∧
      (run env st (onMove A dx dy)).timers = [] :=
  onMove_direct_run A env st x0 y0 dx dy hs hp

/-- Witness of C1 in doubles: pointer at `(10, 20)`, smoothing off, sensitivity
`2`, payload `(3, 4)`: one move to `(16, 28)` and no timer. -/
theorem direct_move_witness :
    (quietEnv (F64.ofInt 10) (F64.ofInt 20)).pos 0 = .ok (F64.ofInt 10, F64.ofInt 20) ∧
      (run (quietEnv (F64.ofInt 10) (F64.ofInt 20))
          { sensitivity := F64.ofInt 2, scrollSensitivity := F64.ofInt 1, smoothing := false }
          (onMove binary64 (F64.ofInt 3) (F64.ofInt 4))).calls =
        [.moveMouse (F64.ofInt 16) (F64.ofInt 28)] ∧
      (run (quietEnv (F64.ofInt 10) (F64.ofInt 20))
          { sensitivity := F64.ofInt 2, scrollSensitivity := F64.ofInt 1, smoothing := false }
          (onMove binary64 (F64.ofInt 3) (F64.ofInt 4))).timers = [] :=
  ⟨rfl, direct_move binary64 (quietEnv (F64.ofInt 10) (F64.ofInt 20))
    { sensitivity := F64.ofInt 2, scrollSensitivity := F64.ofInt 1, smoothing := false }
    (F64.ofInt 10) (F64.ofInt 20) (F64.ofInt 3) (F64.ofInt 4) rfl rfl⟩

/-- C2 fails in doubles.  Pointer at `(0, 0)` at both reads, default settings
(sensitivity `2`, smoothing on), payload `dx = 1.7499999999999998`, `dy = 0`:
the direct target is `x = 3.4999999999999996`, which rounds to `3`, but the
fifth timer moves to `x = 4`, because `(3.4999999999999996 / 5) * 5` is the
double `3.5`. -/
theorem smooth_end_point_counterexample :
    ((run (quietEnv (F64.ofInt 0) (F64.ofInt 0)) (defaultSettings binary64)
          (onMove binary64 belowSevenQuarters (F64.ofInt 0))).timers[4]?).map Prod.snd =
        some (.moveMouse (F64.ofInt 4) (F64.ofInt 0)) ∧
      Prim.moveMouse
          (binary64.round (binary64.add (F64.ofInt 0)
            (binary64.mul belowSevenQuarters (defaultSettings binary64).sensitivity)))
          (binary64.round (binary64.add (F64.ofInt 0)
            (binary64.mul (F64.ofInt 0) (defaultSettings binary64).sensitivity))) =
        .moveMouse (F64.ofInt 3) (F64.ofInt 0) ∧
      ((run (quietEnv (F64.ofInt 0) (F64.ofInt 0)) (defaultSettings binary64)
          (onMove binary64 belowSevenQuarters (F64.ofInt 0))).timers[4]?).map Prod.snd ≠
        some (.moveMouse
          (binary64.round (binary64.add (F64.ofInt 0)
            (binary64.mul belowSevenQuarters (defaultSettings binary64).sensitivity)))
          (binary64.round (binary64.add (F64.ofInt 0)
            (binary64.mul (F64.ofInt 0) (defaultSettings binary64).sensitivity)))) := by
  decide

/-- C2, amended.  Let `(x0, y0)` be the pointer position the handler reads and
`(x1, y1)` the position `smoothMove` reads right after.  With `smoothing =
true` the fifth timer moves to `round (x1 + (((x0 + dx * s) - x1) / 5) * 5)`
(likewise in `y`), every operation taken in the arithmetic of the host; in
exact arithmetic this is `round (x0 + dx * s)`, the rounded direct-mode
target, whatever the second read. -/
theorem smooth_end_point :
    (∀ {α : Type} (A : JsArith α) (env : Env α) (st : Settings α) (x0 y0 x1 y1 dx dy : α),
      st.smoothing = true → env.pos 0 = .ok (x0, y0) → env.pos 1 = .ok (x1, y1) →
      ((run env st (onMove A dx dy)).timers[4]?).map Prod.snd =
        some (.moveMouse
          (A.round (A.add x1 (A.mul
            (A.div (A.sub (A.add x0 (A.mul dx st.sensitivity)) x1) (A.ofInt 5)) (A.ofInt 5))))
          (A.round (A.add y1 (A.mul
            (A.div (A.sub (A.add y0 (A.mul dy st.sensitivity)) y1) (A.ofInt 5)) (A.ofInt 5)))))) ∧
    (∀ (env : Env ℚ) (st : Settings ℚ) (x0 y0 x1 y1 dx dy : ℚ),
      st.smoothing = true → env.pos 0 = .ok (x0, y0) → env.pos 1 = .ok (x1, y1) →
      ((run env st (onMove exactArith dx dy)).timers[4]?).map Prod.snd =
        some (.moveMouse
          (exactArith.round (exactArith.add x0 (exactArith.mul dx st.sensitivity)))
          (exactArith.round (exactArith.add y0 (exactArith.mul dy st.sensitivity))))) := by
  refine ⟨?_, ?_⟩
  · intro α A env st x0 y0 x1 y1 dx dy hs hp0 hp1
    rw [onMove_smooth_run A env st x0 y0 x1 y1 dx dy hs hp0 hp1]
    rfl
  · intro env st x0 y0 x1 y1 dx dy hs hp0 hp1
    rw [onMove_smooth_run exactArith env st x0 y0 x1 y1 dx dy hs hp0 hp1]
    simp only [List.map, List.getElem?_cons_succ, List.getElem?_cons_zero, Option.map]
    rw [exact_last_step, exact_last_step]

/-- Witness of the amended C2 in doubles: the handler reads `(10, 20)`,
`smoothMove` reads `(12, 20)`, default settings, payload `(3, 4)`: the fifth
timer moves to `(16, 28)`. -/
theorem smooth_end_point_witness :
    (defaultSettings binary64).smoothing = true ∧
      (movingEnv (F64.ofInt 10, F64.ofInt 20) (F64.ofInt 12, F64.ofInt 20)).pos 0 =
        .ok (F64.ofInt 10, F64.ofInt 20) ∧
      (movingEnv (F64.ofInt 10, F64.ofInt 20) (F64.ofInt 12, F64.ofInt 20)).pos 1 =
        .ok (F64.ofInt 12, F64.ofInt 20) ∧
      ((run (movingEnv (F64.ofInt 10, F64.ofInt 20) (F64.ofInt 12, F64.ofInt 20))
          (defaultSettings binary64)
          (onMove binary64 (F64.ofInt 3) (F64.ofInt 4))).timers[4]?).map Prod.snd =
        some (.moveMouse (F64.ofInt 16) (F64.ofInt 28)) :=
  ⟨rfl, rfl, rfl,
    smooth_end_point.1 binary64
      (movingEnv (F64.ofInt 10, F64.ofInt 20) (F64.ofInt 12, F64.ofInt 20))
      (defaultSettings binary64) (F64.ofInt 10) (F64.ofInt 20) (F64.ofInt 12) (F64.ofInt 20)
      (F64.ofInt 3) (F64.ofInt 4) rfl rfl rfl⟩

/-- C3 fails in doubles.  Pointer at `(2, 0)` at both reads, default settings
(sensitivity `2`, smoothing on), payload `dx = 1.2499999999999998`, `dy = 0`:
the third timer moves to `x = 4`, while `round (2 + ((dx * 2) / 5) * 3)` is
`3`: the handler interpolates `(2 + dx * 2) - 2`, which is the double `2.5`,
and not `dx * 2 = 2.4999999999999996`. -/
theorem smooth_schedule_counterexample :
    ((run (quietEnv (F64.ofInt 2) (F64.ofInt 0)) (defaultSettings binary64)
          (onMove binary64 belowFiveQuarters (F64.ofInt 0))).timers[2]?).map Prod.snd =
        some (.moveMouse (F64.ofInt 4) (F64.ofInt 0)) ∧
      Prim.moveMouse
          (binary64.round (binary64.add (F64.ofInt 2) (binary64.mul
            (binary64.div (binary64.mul belowFiveQuarters (defaultSettings binary64).sensitivity)
              (F64.ofInt 5))
            (F64.ofInt 3))))
          (binary64.round (binary64.add (F64.ofInt 0) (binary64.mul
            (binary64.div (binary64.mul (F64.ofInt 0) (defaultSettings binary64).sensitivity)
              (F64.ofInt 5))
            (F64.ofInt 3)))) =
        .moveMouse (F64.ofInt 3) (F64.ofInt 0) ∧
      ((run (quietEnv (F64.ofInt 2) (F64.ofInt 0)) (defaultSettings binary64)
          (onMove binary64 belowFiveQuarters (F64.ofInt 0))).timers[2]?).map Prod.snd ≠
        some (.moveMouse
          (binary64.round (binary64.add (F64.ofInt 2) (binary64.mul
            (binary64.div (binary64.mul belowFiveQuarters (defaultSettings binary64).sensitivity)
              (F64.ofInt 5))
            (F64.ofInt 3))))
          (binary64.round (binary64.add (F64.ofInt 0) (binary64.mul
            (binary64.div (binary64.mul (F64.ofInt 0) (defaultSettings binary64).sensitivity)
              (F64.ofInt 5))
            (F64.ofInt 3))))) := by
  decide

/-- C3, amended.  Let `(x0, y0)` be the pointer position the handler reads and
`(x1, y1)` the position `smoothMove` reads right after.  With `smoothing =
true` the `move` handler makes no robot call of its own and registers exactly
five timers; the `i`-th (`i = 1..5`) has delay `i * (1000 / 60)` and moves to
`round (x1 + (((x0 + dx * s) - x1) / 5) * i)` (likewise in `y`), every
operation taken in the arithmetic of the host; when the two reads agree and
the arithmetic is exact this is `round (x0 + (dx * s / 5) * i)`. -/
theorem smooth_schedule :
    (∀ {α : Type} (A : JsArith α) (env : Env α) (st : Settings α) (x0 y0 x1 y1 dx dy : α),
      st.smoothing = true → env.pos 0 = .ok (x0, y0) → env.pos 1 = .ok (x1, y1) →
      (run env st (onMove A dx dy)).calls = [] ∧
      (run env st (onMove A dx dy)).timers =
        ([1, 2, 3, 4, 5] : List Int).map (fun i =>
          (A.mul (A.ofInt i) (A.div (A.ofInt 1000) (A.ofInt 60)),
           Prim.moveMouse
            (A.round (A.add x1 (A.mul
              (A.div (A.sub (A.add x0 (A.mul dx st.sensitivity)) x1) (A.ofInt 5)) (A.ofInt i))))
            (A.round (A.add y1 (A.mul
              (A.div (A.sub (A.add y0 (A.mul dy st.sensitivity)) y1) (A.ofInt 5))
              (A.ofInt i))))))) ∧
    (∀ (env : Env ℚ) (st : Settings ℚ) (x0 y0 dx dy : ℚ),
      st.smoothing = true → env.pos 0 = .ok (x0, y0) → env.pos 1 = .ok (x0, y0) →
      (run env st (onMove exactArith dx dy)).calls = [] ∧
      (run env st (onMove exactArith dx dy)).timers =
        ([1, 2, 3, 4, 5] : List Int).map (fun i =>
          (exactArith.mul (exactArith.ofInt i)
            (exactArith.div (exactArith.ofInt 1000) (exactArith.ofInt 60)),
           Prim.moveMouse
            (exactArith.round (exactArith.add x0 (exactArith.mul
              (exactArith.div (exactArith.mul dx st.sensitivity) (exactArith.ofInt 5))
              (exactArith.ofInt i))))
            (exactArith.round (exactArith.add y0 (exactArith.mul
              (exactArith.div (exactArith.mul dy st.sensitivity) (exactArith.ofInt 5))
              (exactArith.ofInt i))))))) := by
  refine ⟨?_, ?_⟩
  · intro α A env st x0 y0 x1 y1 dx dy hs hp0 hp1
    rw [onMove_smooth_run A env st x0 y0 x1 y1 dx dy hs hp0 hp1]
    exact ⟨rfl, rfl⟩
  · intro env st x0 y0 dx dy hs hp0 hp1
    rw [onMove_smooth_run exactArith env st x0 y0 x0 y0 dx dy hs hp0 hp1]
    refine ⟨rfl, ?_⟩
    simp only [exact_step]

/-- Witness of the amended C3 in doubles: the handler reads `(10, 20)`,
`smoothMove` reads `(12, 20)`, default settings, payload `(3, 4)`, so the
target is `(16, 28)`: the five timers move to `(13, 22)`, `(14, 23)`,
`(14, 25)`, `(15, 26)`, `(16, 28)`. -/
theorem smooth_schedule_witness :
    (defaultSettings binary64).smoothing = true ∧
      (movingEnv (F64.ofInt 10, F64.ofInt 20) (F64.ofInt 12, F64.ofInt 20)).pos 0 =
        .ok (F64.ofInt 10, F64.ofInt 20) ∧
      (movingEnv (F64.ofInt 10, F64.ofInt 20) (F64.ofInt 12, F64.ofInt 20)).pos 1 =
        .ok (F64.ofInt 12, F64.ofInt 20) ∧
      (run (movingEnv (F64.ofInt 10, F64.ofInt 20) (F64.ofInt 12, F64.ofInt 20))
          (defaultSettings binary64)
          (onMove binary64 (F64.ofInt 3) (F64.ofInt 4))).calls = [] ∧
      (run (movingEnv (F64.ofInt 10, F64.ofInt 20) (F64.ofInt 12, F64.ofInt 20))
          (defaultSettings binary64)
          (onMove binary64 (F64.ofInt 3) (F64.ofInt 4))).timers =
        [(⟨4691249611844267, -48⟩, .moveMouse (F64.ofInt 13) (F64.ofInt 22)),
         (⟨4691249611844267, -47⟩, .moveMouse (F64.ofInt 14) (F64.ofInt 23)),
         (F64.ofInt 50, .moveMouse (F64.ofInt 14) (F64.ofInt 25)),
         (⟨4691249611844267, -46⟩, .moveMouse (F64.ofInt 15) (F64.ofInt 26)),
         (⟨2932031007402667, -45⟩, .moveMouse (F64.ofInt 16) (F64.ofInt 28))] :=
  ⟨rfl, rfl, rfl,
    smooth_schedule.1 binary64
      (movingEnv (F64.ofInt 10, F64.ofInt 20) (F64.ofInt 12, F64.ofInt 20))
      (defaultSettings binary64) (F64.ofInt 10) (F64.ofInt 20) (F64.ofInt 12) (F64.ofInt 20)
      (F64.ofInt 3) (F64.ofInt 4) rfl rfl rfl⟩

/-! ## Settings store -/

/-- Handling `updateSettings` replaces the settings by the spread. -/
theorem afterUpdate_eq_spread {α : Type} (env : Env α) (S : Settings α)
    (P : PartialSettings α) : afterUpdate env S P = spread S P := by
  simp [afterUpdate, run, onUpdateSettings, bind, Script.andThen, getSettings, setSettings,
    socketEmit]

/-- C4. Two `updateSettings` events with disjoint field sets compose: after
`P` and then `Q`, every field of `P` has the value given by `P`, every field of
`Q` the value given by `Q`, and a field named by neither keeps its value in
`S`; the result is that of the single update with the union of `P` and `Q`,
and that of the two updates in the other order. -/
theorem update_settings_compose {α : Type} (env1 env2 : Env α) (S : Settings α)
    (P Q : PartialSettings α) (hd : fieldsDisjoint P Q) :
    ((∀ v, P.sensitivity = some v →
        (afterUpdate env2 (afterUpdate env1 S P) Q).sensitivity = v) ∧
      (∀ v, P.scrollSensitivity = some v →
        (afterUpdate env2 (afterUpdate env1 S P) Q).scrollSensitivity = v) ∧
      (∀ v, P.smoothing = some v →
        (afterUpdate env2 (afterUpdate env1 S P) Q).smoothing = v)) ∧
    ((∀ v, Q.sensitivity = some v →
        (afterUpdate env2 (afterUpdate env1 S P) Q).sensitivity = v) ∧
      (∀ v, Q.scrollSensitivity = some v →
        (afterUpdate env2 (afterUpdate env1 S P) Q).scrollSensitivity = v) ∧
      (∀ v, Q.smoothing = some v →
        (afterUpdate env2 (afterUpdate env1 S P) Q).smoothing = v)) ∧
    ((P.sensitivity = none → Q.sensitivity = none →
        (afterUpdate env2 (afterUpdate env1 S P) Q).sensitivity = S.sensitivity) ∧
      (P.scrollSensitivity = none → Q.scrollSensitivity = none →
        (afterUpdate env2 (afterUpdate env1 S P) Q).scrollSensitivity = S.scrollSensitivity) ∧
      (P.smoothing = none → Q.smoothing = none →
        (afterUpdate env2 (afterUpdate env1 S P) Q).smoothing = S.smoothing)) ∧
    afterUpdate env2 (afterUpdate env1 S P) Q = afterUpdate env1 S (unionFields P Q) ∧
    afterUpdate env2 (afterUpdate env1 S P) Q = afterUpdate env1 (afterUpdate env2 S Q) P := by
  simp only [afterUpdate_eq_spread]
  obtain ⟨ps, pc, pm⟩ := P
  obtain ⟨qs, qc, qm⟩ := Q
  cases ps <;> cases pc <;> cases pm <;> cases qs <;> cases qc <;> cases qm <;>
    simp_all [fieldsDisjoint, spread, unionFields]

/-- Witness of C4: from the default settings, `{sensitivity: 3}` and then
`{smoothing: false}` give `{sensitivity: 3, scrollSensitivity: 1, smoothing:
false}`. -/
theorem update_settings_compose_witness :
    fieldsDisjoint
        ({ sensitivity := some 3, scrollSensitivity := none, smoothing := none } :
          PartialSettings ℚ)
        { sensitivity := none, scrollSensitivity := none, smoothing := some false } ∧
      (afterUpdate (quietEnv 0 0)
          (afterUpdate (quietEnv 0 0) (defaultSettings exactArith)
            { sensitivity := some 3, scrollSensitivity := none, smoothing := none })
          { sensitivity := none, scrollSensitivity := none, smoothing := some false }).sensitivity
        = 3 ∧
      (afterUpdate (quietEnv 0 0)
          (afterUpdate (quietEnv 0 0) (defaultSettings exactArith)
            { sensitivity := some 3, scrollSensitivity := none, smoothing := none })
          { sensitivity := none, scrollSensitivity := none, smoothing := some false }).smoothing
        = false ∧
      (afterUpdate (quietEnv 0 0)
          (afterUpdate (quietEnv 0 0) (defaultSettings exactArith)
            { sensitivity := some 3, scrollSensitivity := none, smoothing := none })
          { sensitivity := none, scrollSensitivity := none,
            smoothing := some false }).scrollSensitivity
        = (defaultSettings exactArith).scrollSensitivity :=
  have hd : fieldsDisjoint
      ({ sensitivity := some 3, scrollSensitivity := none, smoothing := none } :
        PartialSettings ℚ)
      { sensitivity := none, scrollSensitivity := none, smoothing := some false } :=
    ⟨Or.inr rfl, Or.inl rfl, Or.inl rfl⟩
  have h := update_settings_compose (quietEnv (0 : ℚ) 0) (quietEnv (0 : ℚ) 0)
    (defaultSettings exactArith)
    { sensitivity := some 3, scrollSensitivity := none, smoothing := none }
    { sensitivity := none, scrollSensitivity := none, smoothing := some false } hd
  ⟨hd, h.1.1 3 rfl, h.2.1.2.2 false rfl, h.2.2.1.2.1 rfl rfl⟩

/-! ## Action relay -/

/-- The runs of the `click` handler. -/
theorem onClick_run {α : Type} (A : JsArith α) (env : Env α) (st : Settings α)
    (button : String) :
    (env.fails (.mouseClick button) = none →
      run env st (onClick A button true) =
        { settings := st, calls := [.mouseClick button],
          timers := [(A.ofInt 100, .mouseClick button)], emits := [], uncaught := none }) ∧
    (∀ msg, env.fails (.mouseClick button) = some msg →
      run env st (onClick A button true) =
        { settings := st, calls := [.mouseClick button], timers := [],
          emits := [.error "Failed to click mouse"], uncaught := none }) ∧
    (run env st (onClick A button false)).calls = [.mouseClick button] ∧
    (run env st (onClick A button false)).timers = [] := by
  cases hf : env.fails (.mouseClick button) <;>
  simp [run, onClick, setTimeout, tryCatch, tryCatchThe, MonadExcept.tryCatch, bind,
    Script.attempt, Script.andThen, robotCall, socketEmit, hf]

/-- C5 fails when the immediate click throws.  With a robot that rejects
unknown buttons, `click {button: "side", double: true}` makes one (failing)
click call, registers no timer and sends `error` to the client; the same
happens for `"left"` with a robot whose commands throw.  No second click is
ever made. -/
theorem double_click_counterexample :
    run (knownButtonsEnv (F64.ofInt 0) (F64.ofInt 0)) (defaultSettings binary64)
        (onClick binary64 "side" true) =
      { settings := defaultSettings binary64, calls := [.mouseClick "side"], timers := [],
        emits := [.error "Failed to click mouse"], uncaught := none } ∧
      (run (knownButtonsEnv (F64.ofInt 0) (F64.ofInt 0)) (defaultSettings binary64)
        (onClick binary64 "side" true)).timers ≠ [(F64.ofInt 100, .mouseClick "side")] ∧
      (run (brokenEnv (F64.ofInt 0) (F64.ofInt 0) "click failed") (defaultSettings binary64)
        (onClick binary64 "left" true)).timers = [] ∧
      (run (brokenEnv (F64.ofInt 0) (F64.ofInt 0) "click failed") (defaultSettings binary64)
        (onClick binary64 "left" true)).timers ≠ [(F64.ofInt 100, .mouseClick "left")] := by
  decide

/-- C5, amended.  For every button `b`: if the immediate click does not throw,
`click {button: b, double: true}` makes one click on `b` in the handler and
registers one timer, with delay `100`, whose callback clicks `b`; if the
immediate click throws, no timer is registered and one `error` event is sent;
`click {button: b, double: false}` makes one click on `b` and registers no
timer. -/
theorem double_click {α : Type} (A : JsArith α) (env : Env α) (st : Settings α)
    (button : String) :
    (env.fails (.mouseClick button) = none →
      run env st (onClick A button true) =
        { settings := st, calls := [.mouseClick button],
          timers := [(A.ofInt 100, .mouseClick button)], emits := [], uncaught := none }) ∧
    (∀ msg, env.fails (.mouseClick button) = some msg →
      run env st (onClick A button true) =
        { settings := st, calls := [.mouseClick button], timers := [],
          emits := [.error "Failed to click mouse"], uncaught := none }) ∧
    (run env st (onClick A button false)).calls = [.mouseClick button] ∧
    (run env st (onClick A button false)).timers = [] :=
  onClick_run A env st button

/-- Witness of the amended C5: a double click on `"left"` with a robot that
does not throw. -/
theorem double_click_witness :
    (quietEnv (F64.ofInt 0) (F64.ofInt 0)).fails (.mouseClick "left") = none ∧
      run (quietEnv (F64.ofInt 0) (F64.ofInt 0)) (defaultSettings binary64)
          (onClick binary64 "left" true) =
        { settings := defaultSettings binary64, calls := [.mouseClick "left"],
          timers := [(F64.ofInt 100, .mouseClick "left")], emits := [], uncaught := none } :=
  ⟨rfl, (double_click binary64 (quietEnv (F64.ofInt 0) (F64.ofInt 0)) (defaultSettings binary64)
    "left").1 rfl⟩

/-- The run of the `drag` handler when no command throws. -/
theorem onDrag_run {α : Type} (env : Env α) (st : Settings α) (startPt endPt : α × α)
    (hok : ∀ p, env.fails p = none) :
    run env st (onDrag startPt endPt) =
      { settings := st
        calls := [.mouseToggle "down", .dragMouse endPt.1 endPt.2, .mouseToggle "up"]
        timers := [], emits := [], uncaught := none } := by
  simp [run, onDrag, tryCatch, tryCatchThe, MonadExcept.tryCatch, bind,
    Script.attempt, Script.andThen, robotCall, hok]

/-- C6. Drag: when no command throws, the handler issues exactly button down
(`mouseToggle "down"`, no button argument, i.e. the primary button), one
`dragMouse` to `(end.x, end.y)`, button up, in this order; the run is the same
for every `start`, and when `start` differs from `end` no move goes to
`start`. -/
theorem drag_sequence {α : Type} (env : Env α) (st : Settings α) (startPt endPt : α × α)
    (hok : ∀ p, env.fails p = none) :
    run env st (onDrag startPt endPt) =
      { settings := st
        calls := [.mouseToggle "down", .dragMouse endPt.1 endPt.2, .mouseToggle "up"]
        timers := [], emits := [], uncaught := none } ∧
    (∀ other : α × α, run env st (onDrag other endPt) = run env st (onDrag startPt endPt)) ∧
    (startPt ≠ endPt →
      Prim.dragMouse startPt.1 startPt.2 ∉ (run env st (onDrag startPt endPt)).calls ∧
      Prim.moveMouse startPt.1 startPt.2 ∉ (run env st (onDrag startPt endPt)).calls) := by
  refine ⟨onDrag_run env st startPt endPt hok, fun _ => rfl, ?_⟩
  intro hne
  rw [onDrag_run env st startPt endPt hok]
  have hne2 : ¬ (startPt.1 = endPt.1 ∧ startPt.2 = endPt.2) := by
    rintro ⟨h1, h2⟩
    exact hne (Prod.ext h1 h2)
  simpa using hne2

/-- Witness of C6: `start = (0, 0)`, `end = (100, 50)`: down, one move to
`(100, 50)`, up. -/
theorem drag_sequence_witness :
    (∀ p, (quietEnv (F64.ofInt 0) (F64.ofInt 0)).fails p = none) ∧
      run (quietEnv (F64.ofInt 0) (F64.ofInt 0)) (defaultSettings binary64)
          (onDrag (F64.ofInt 0, F64.ofInt 0) (F64.ofInt 100, F64.ofInt 50)) =
        { settings := defaultSettings binary64
          calls := [.mouseToggle "down", .dragMouse (F64.ofInt 100) (F64.ofInt 50),
            .mouseToggle "up"]
          timers := [], emits := [], uncaught := none } :=
  ⟨fun _ => rfl, (drag_sequence (quietEnv (F64.ofInt 0) (F64.ofInt 0)) (defaultSettings binary64)
    (F64.ofInt 0, F64.ofInt 0) (F64.ofInt 100, F64.ofInt 50) (fun _ => rfl)).1⟩

/-- The runs of the `scroll` handler, by what the environment lets throw. -/
theorem onScroll_run {α : Type} (A : JsArith α) (env : Env α) (st : Settings α) (n : α) :
    (env.fails (.scrollMouse (A.ofInt 0) (A.mul n (A.ofInt 100))) = none →
      run env st (onScroll A n) =
        { settings := st, calls := [.scrollMouse (A.ofInt 0) (A.mul n (A.ofInt 100))],
          timers := [], emits := [], uncaught := none }) ∧
    (∀ msg, env.fails (.scrollMouse (A.ofInt 0) (A.mul n (A.ofInt 100))) = some msg →
      run env st (onScroll A n) =
        { settings := st
          calls := [.scrollMouse (A.ofInt 0) (A.mul n (A.ofInt 100)),
            .keyTap (if A.isPos n then "pagedown" else "pageup")]
          timers := [], emits := [], uncaught := none }) := by
  cases hf : env.fails (.scrollMouse (A.ofInt 0) (A.mul n (A.ofInt 100))) <;>
  cases hp : A.isPos n <;>
  cases hd : env.fails (.keyTap "pagedown") <;>
  cases hu : env.fails (.keyTap "pageup") <;>
  simp [run, onScroll, tryCatch, tryCatchThe, MonadExcept.tryCatch, bind, pure,
    Script.attempt, Script.andThen, Script.ret, robotCall, socketEmit, hf, hp, hd, hu]

/-- C7. Scroll amplification: the `scroll` handler issues, first, the command
`scrollMouse(0, n * 100)`, and no other scroll command; the commands issued do
not depend on the settings.  For `n = -1` the amount is `-100` and for `n = 1`
it is `100`, in exact arithmetic and in doubles. -/
theorem scroll_amplification :
    (∀ {α : Type} (A : JsArith α) (env : Env α) (st : Settings α) (n : α),
      ∃ rest, (run env st (onScroll A n)).calls =
          .scrollMouse (A.ofInt 0) (A.mul n (A.ofInt 100)) :: rest ∧
        (∀ x y, Prim.scrollMouse x y ∉ rest) ∧
        ∀ other : Settings α,
          (run env other (onScroll A n)).calls = (run env st (onScroll A n)).calls) ∧
    (exactArith.mul (exactArith.ofInt (-1)) (exactArith.ofInt 100) = -100 ∧
      exactArith.mul (exactArith.ofInt 1) (exactArith.ofInt 100) = 100) ∧
    (binary64.mul (binary64.ofInt (-1)) (binary64.ofInt 100) = binary64.ofInt (-100) ∧
      binary64.mul (binary64.ofInt 1) (binary64.ofInt 100) = binary64.ofInt 100) := by
  refine ⟨?_, ?_, ?_⟩
  · intro α A env st n
    cases hf : env.fails (.scrollMouse (A.ofInt 0) (A.mul n (A.ofInt 100))) with
    | none =>
      refine ⟨[], ?_, ?_, ?_⟩
      · rw [(onScroll_run A env st n).1 hf]
      · intro x y h
        cases h
      · intro other
        rw [(onScroll_run A env st n).1 hf, (onScroll_run A env other n).1 hf]
    | some msg =>
      refine ⟨[.keyTap (if A.isPos n then "pagedown" else "pageup")], ?_, ?_, ?_⟩
      · rw [(onScroll_run A env st n).2 msg hf]
      · intro x y h
        simp at h
      · intro other
        rw [(onScroll_run A env st n).2 msg hf, (onScroll_run A env other n).2 msg hf]
  · constructor <;> norm_num [exactArith]
  · decide

/-- C8. Scroll fallback: if `scrollMouse` throws, the handler makes exactly one
key tap, `pagedown` when `n > 0` and `pageup` otherwise, sends no `error`
event and lets no exception out, whether the key tap throws or not. -/
theorem scroll_fallback {α : Type} (A : JsArith α) (env : Env α) (st : Settings α) (n : α)
    (msg : String)
    (hf : env.fails (.scrollMouse (A.ofInt 0) (A.mul n (A.ofInt 100))) = some msg) :
    (run env st (onScroll A n)).calls =
        [.scrollMouse (A.ofInt 0) (A.mul n (A.ofInt 100)),
          .keyTap (if A.isPos n then "pagedown" else "pageup")] ∧
      (run env st (onScroll A n)).emits = [] ∧
      (run env st (onScroll A n)).uncaught = none := by
  rw [(onScroll_run A env st n).2 msg hf]
  exact ⟨rfl, rfl, rfl⟩

/-- Witness of C8: every command throws and `n = -1`: the scroll by `-100`
is followed by one `pageup` tap, and nothing is sent to the client. -/
theorem scroll_fallback_witness :
    (brokenEnv (F64.ofInt 0) (F64.ofInt 0) "no scroll").fails
        (.scrollMouse (binary64.ofInt 0) (binary64.mul (F64.ofInt (-1)) (binary64.ofInt 100))) =
        some "no scroll" ∧
      (run (brokenEnv (F64.ofInt 0) (F64.ofInt 0) "no scroll") (defaultSettings binary64)
          (onScroll binary64 (F64.ofInt (-1)))).calls =
        [.scrollMouse (F64.ofInt 0) (F64.ofInt (-100)), .keyTap "pageup"] ∧
      (run (brokenEnv (F64.ofInt 0) (F64.ofInt 0) "no scroll") (defaultSettings binary64)
          (onScroll binary64 (F64.ofInt (-1)))).emits = [] ∧
      (run (brokenEnv (F64.ofInt 0) (F64.ofInt 0) "no scroll") (defaultSettings binary64)
          (onScroll binary64 (F64.ofInt (-1)))).uncaught = none :=
  ⟨rfl, scroll_fallback binary64 (brokenEnv (F64.ofInt 0) (F64.ofInt 0) "no scroll")
    (defaultSettings binary64) (F64.ofInt (-1)) "no scroll" rfl⟩

/-! ## Failure isolation -/

/-- The four handlers `move`, `click`, `scroll` and `drag` let no exception
of a robot call made inside the handler out, and leave the settings as they
were. -/
theorem handlers_catch_synchronous {α : Type} (A : JsArith α) (env : Env α) (st : Settings α)
    (dx dy n : α) (button : String) (double : Bool) (startPt endPt : α × α) :
    ((run env st (onMove A dx dy)).uncaught = none ∧
      (run env st (onMove A dx dy)).settings = st) ∧
    ((run env st (onClick A button double)).uncaught = none ∧
      (run env st (onClick A button double)).settings = st) ∧
    ((run env st (onScroll A n)).uncaught = none ∧
      (run env st (onScroll A n)).settings = st) ∧
    ((run env st (onDrag startPt endPt)).uncaught = none ∧
      (run env st (onDrag startPt endPt)).settings = st) := by
  refine ⟨?_, ?_, ?_, ?_⟩
  · cases hp0 : env.pos 0 with
    | error e =>
      simp [run, onMove, tryCatch, tryCatchThe, MonadExcept.tryCatch, bind,
        Script.attempt, Script.andThen, getMousePos, socketEmit, hp0]
    | ok pt =>
      obtain ⟨x0, y0⟩ := pt
      cases hs : st.smoothing with
      | true =>
        cases hp1 : env.pos 1 with
        | error e =>
          simp [run, onMove, smoothMove, tryCatch, tryCatchThe, MonadExcept.tryCatch, bind,
            Script.attempt, Script.andThen, getMousePos, getSettings, socketEmit, hs, hp0, hp1]
        | ok pt1 =>
          obtain ⟨x1, y1⟩ := pt1
          rw [onMove_smooth_run A env st x0 y0 x1 y1 dx dy hs hp0 hp1]
          exact ⟨rfl, rfl⟩
      | false =>
        cases hf : env.fails (.moveMouse (A.add x0 (A.mul dx st.sensitivity))
          (A.add y0 (A.mul dy st.sensitivity))) <;>
        simp [run, onMove, tryCatch, tryCatchThe, MonadExcept.tryCatch, bind, Script.attempt,
          Script.andThen, getMousePos, getSettings, robotCall, socketEmit, hs, hp0, hf]
  · cases double <;> cases hf : env.fails (.mouseClick button) <;>
    simp [run, onClick, setTimeout, tryCatch, tryCatchThe, MonadExcept.tryCatch, bind,
      Script.attempt, Script.andThen, robotCall, socketEmit, hf]
  · cases hf : env.fails (.scrollMouse (A.ofInt 0) (A.mul n (A.ofInt 100))) with
    | none => rw [(onScroll_run A env st n).1 hf]; exact ⟨rfl, rfl⟩
    | some msg => rw [(onScroll_run A env st n).2 msg hf]; exact ⟨rfl, rfl⟩
  · cases h1 : env.fails (.mouseToggle "down") <;>
    cases h2 : env.fails (.dragMouse endPt.1 endPt.2) <;>
    cases h3 : env.fails (.mouseToggle "up") <;>
    simp [run, onDrag, tryCatch, tryCatchThe, MonadExcept.tryCatch, bind,
      Script.attempt, Script.andThen, robotCall, socketEmit, h1, h2, h3]

/-- C9 fails for the deferred calls.  The double click on `"left"` registers
the timer `(100, mouseClick "left")`, and a smoothed move registers five
`moveMouse` timers; when such a timer fires and its robot call throws, the
exception leaves the callback: nothing in `timerCallback` catches it. -/
theorem deferred_failure_uncaught :
    (run (quietEnv (F64.ofInt 0) (F64.ofInt 0)) (defaultSettings binary64)
        (onClick binary64 "left" true)).timers = [(F64.ofInt 100, .mouseClick "left")] ∧
      (run (brokenEnv (F64.ofInt 0) (F64.ofInt 0) "click failed") (defaultSettings binary64)
        (timerCallback (.mouseClick "left"))).uncaught = some "click failed" ∧
      ((run (quietEnv (F64.ofInt 10) (F64.ofInt 20)) (defaultSettings binary64)
        (onMove binary64 (F64.ofInt 3) (F64.ofInt 4))).timers[0]?).map Prod.snd =
        some (.moveMouse (F64.ofInt 11) (F64.ofInt 22)) ∧
      (run (brokenEnv (F64.ofInt 10) (F64.ofInt 20) "move failed") (defaultSettings binary64)
        (timerCallback (.moveMouse (F64.ofInt 11) (F64.ofInt 22)))).uncaught =
        some "move failed" := by
  decide

/-! ## Gesture encoder -/

/-- C10. Silent drop: when `socket.current?.connected` is falsy, a movement
sample, a `handleClick` call and a `handleScroll` call emit nothing; when it is
true each emits exactly one event: `move {dx: gestureDx / 2, dy: gestureDy /
2}`, `click {button, double}` (`double` being `false` when omitted), or
`scroll {scrollAmount}` with `-1` for `"up"` and `1` otherwise. -/
theorem silent_drop {α : Type} (A : JsArith α) (socket : Option ClientSocket)
    (gestureDx gestureDy : α) (button : String) (double : Option Bool) (direction : String) :
    (onPanResponderMove A socket gestureDx gestureDy).emits =
        (if connected socket then
          [.move (A.div gestureDx (A.ofInt 2)) (A.div gestureDy (A.ofInt 2))]
        else []) ∧
      (handleClick socket button double : ClientOutcome α).emits =
        (if connected socket then [.click button (double.getD false)] else []) ∧
      (handleScroll A socket direction).emits =
        (if connected socket then
          [.scroll (if direction = "up" then A.ofInt (-1) else A.ofInt 1)]
        else []) := by
  cases h : connected socket <;>
  simp [onPanResponderMove, handleClick, handleScroll, h]

end MouseController
